import Mathlib

/-!
The switch-backed message sender of blockchain/v2/io.go

A shallow embedding of `switchIO` and its six methods.  The methods only talk to
collaborators that live in other packages (the peer set and reactor table of
`p2p.Switch`, `bc.MsgToProto`, `Marshal`, `Peer.TrySend`, `Switch.Broadcast`,
the `consensusReactor` type assertion).  Their behaviour is a parameter of the
embedding, and every call made on one of them is recorded, in program order, in
the list of events of the execution.
-/

namespace Blockchain.V2

/-- The type `p2p.ID` is a Go string. -/
abbrev ID := String

/-- Serialized messages are byte strings. -/
abbrev Bytes := List Nat

/-- The constant `BlockchainChannel = byte(0x40)`. -/
def BlockchainChannel : Nat := 0x40

/-- The five message structs of package `bc` that io.go builds
(`bc.BlockRequestMessage`, `bc.BlockResponseMessage`, `bc.NoBlockResponseMessage`,
`bc.StatusResponseMessage`, `bc.StatusRequestMessage`).  Heights are `int64`; they
are only stored, never computed with, so they are integers here. -/
inductive Message (Block : Type) where
  | BlockRequestMessage (Height : Int)
  | BlockResponseMessage (Block : Block)
  | NoBlockResponseMessage (Height : Int)
  | StatusResponseMessage (Height : Int)
  | StatusRequestMessage (Base : Int) (Height : Int)
  deriving DecidableEq, Repr

/-- A Go `error` value: either one built in io.go by `fmt.Errorf` with a constant
text, or one handed back by the codec.  Every call of `fmt.Errorf` allocates a
new value, so the text is all a caller can compare: two `fmt.Errorf` values are
equal here when their texts are. -/
inductive GoError (Err : Type) where
  | errorf (text : String)
  | codec (err : Err)
  deriving DecidableEq, Repr

/-- The argument of a Go `panic`. -/
inductive PanicValue (Err : Type) where
  | text (s : String)
  | error (err : GoError Err)
  deriving DecidableEq, Repr

/-- One call on a collaborator. -/
inductive Event (Peer Block Proto Reactor State : Type) where
  | PeersGet (peerID : ID)
  | MsgToProto (msg : Message Block)
  | Marshal (bm : Proto)
  | TrySend (peer : Peer) (chID : Nat) (msgBytes : Bytes)
  | Broadcast (chID : Nat) (msgBytes : Bytes)
  | Reactor (name : String)
  | SwitchToConsensus (conR : Reactor) (state : State) (blocksSynced : Int)
  deriving DecidableEq, Repr

/-- How control leaves a piece of a Go function body: it goes on to the next
statement with a value, it returns an `error` result (`none` is `nil`), or it
panics. -/
inductive Flow (Err α : Type) where
  | next (a : α)
  | ret (err : Option (GoError Err))
  | panic (v : PanicValue Err)
  deriving DecidableEq, Repr

/-- An execution: the collaborator calls made, in order, and how it ended. -/
structure Exec (Ev Err α : Type) where
  events : List Ev
  flow : Flow Err α
  deriving DecidableEq, Repr

/-- Sequencing of statements: what follows runs only when control goes on. -/
def Exec.bind {Ev Err α β : Type} (x : Exec Ev Err α) (f : α → Exec Ev Err β) :
    Exec Ev Err β :=
  match x.flow with
  | .next a => ⟨x.events ++ (f a).events, (f a).flow⟩
  | .ret err => ⟨x.events, .ret err⟩
  | .panic v => ⟨x.events, .panic v⟩

instance {Ev Err : Type} : Monad (Exec Ev Err) where
  pure a := ⟨[], .next a⟩
  bind := Exec.bind

/-- The statement `return err`. -/
def goReturn {Ev Err α : Type} (err : Option (GoError Err)) : Exec Ev Err α :=
  ⟨[], .ret err⟩

/-- The statement `panic(v)`. -/
def goPanic {Ev Err α : Type} (v : PanicValue Err) : Exec Ev Err α :=
  ⟨[], .panic v⟩

/-- The part of `p2p.Switch` that io.go reads: `sw.Peers().Get(id)` (`none` is the
nil peer) and `sw.Reactor(name)` (`none` is the nil reactor). -/
structure Switch (Peer Reactor : Type) where
  peers : ID → Option Peer
  reactors : String → Option Reactor

/-- The struct `switchIO`. -/
structure switchIO (Peer Reactor : Type) where
  sw : Switch Peer Reactor

/-- The function `newSwitchIo`. -/
def newSwitchIo {Peer Reactor : Type} (sw : Switch Peer Reactor) : switchIO Peer Reactor :=
  { sw := sw }

/-- Behaviour of the functions of other packages that io.go calls:
`bc.MsgToProto`, the `Marshal` method of its result, `Peer.TrySend` (whether the
peer accepts the bytes at the moment of the call) and the type assertion
`.(consensusReactor)` (whether a reactor has the method `SwitchToConsensus`).
`State` is the type `state.State` of the value handed to `SwitchToConsensus`.
The answers are those given at the moment of the call: nothing relates the answer
of `TrySend` to the peer set, which other goroutines may change in between. -/
structure Collaborators (Peer Block Proto Err Reactor State : Type) where
  msgToProto : Message Block → Except Err Proto
  marshal : Proto → Except Err Bytes
  trySend : Peer → Nat → Bytes → Bool
  isConsensusReactor : Reactor → Bool

section Calls

variable {Peer Block Proto Err Reactor State : Type}

/-- The call `sio.sw.Peers().Get(peerID)`. -/
def callPeersGet (sio : switchIO Peer Reactor) (peerID : ID) :
    Exec (Event Peer Block Proto Reactor State) Err (Option Peer) :=
  ⟨[.PeersGet peerID], .next (sio.sw.peers peerID)⟩

/-- The call `bc.MsgToProto(msg)`. -/
def callMsgToProto (c : Collaborators Peer Block Proto Err Reactor State) (msg : Message Block) :
    Exec (Event Peer Block Proto Reactor State) Err (Except Err Proto) :=
  ⟨[.MsgToProto msg], .next (c.msgToProto msg)⟩

/-- The call `bm.Marshal()`. -/
def callMarshal (c : Collaborators Peer Block Proto Err Reactor State) (bm : Proto) :
    Exec (Event Peer Block Proto Reactor State) Err (Except Err Bytes) :=
  ⟨[.Marshal bm], .next (c.marshal bm)⟩

/-- The call `peer.TrySend(chID, msgBytes)`. -/
def callTrySend (c : Collaborators Peer Block Proto Err Reactor State) (peer : Peer) (chID : Nat)
    (msgBytes : Bytes) : Exec (Event Peer Block Proto Reactor State) Err Bool :=
  ⟨[.TrySend peer chID msgBytes], .next (c.trySend peer chID msgBytes)⟩

/-- The call `sio.sw.Broadcast(chID, msgBytes)`; its result is discarded. -/
def callBroadcast (chID : Nat) (msgBytes : Bytes) :
    Exec (Event Peer Block Proto Reactor State) Err Unit :=
  ⟨[.Broadcast chID msgBytes], .next ()⟩

/-- The call `sio.sw.Reactor(name)`. -/
def callReactor (sio : switchIO Peer Reactor) (name : String) :
    Exec (Event Peer Block Proto Reactor State) Err (Option Reactor) :=
  ⟨[.Reactor name], .next (sio.sw.reactors name)⟩

/-- The call `conR.SwitchToConsensus(state, blocksSynced)`. -/
def callSwitchToConsensus (conR : Reactor) (state : State) (blocksSynced : Int) :
    Exec (Event Peer Block Proto Reactor State) Err Unit :=
  ⟨[.SwitchToConsensus conR state blocksSynced], .next ()⟩

end Calls

section Methods

variable {Peer Block Proto Err Reactor State : Type}

/-- The method `switchIO.sendBlockRequest`. -/
def sendBlockRequest (c : Collaborators Peer Block Proto Err Reactor State)
    (sio : switchIO Peer Reactor) (peerID : ID) (height : Int) :
    Exec (Event Peer Block Proto Reactor State) Err Unit := do
  let peer ← callPeersGet sio peerID
  match peer with
  | none => goReturn (some (.errorf "peer not found"))
  | some peer =>
    let r ← callMsgToProto c (.BlockRequestMessage height)
    match r with
    | .error err => goReturn (some (.codec err))
    | .ok bm =>
      let r ← callMarshal c bm
      match r with
      | .error err => goReturn (some (.codec err))
      | .ok msgBytes =>
        let queued ← callTrySend c peer BlockchainChannel msgBytes
        if !queued then
          goReturn (some (.errorf "send queue full"))
        else
          goReturn none

/-- The method `switchIO.sendStatusResponse`. -/
def sendStatusResponse (c : Collaborators Peer Block Proto Err Reactor State)
    (sio : switchIO Peer Reactor) (height : Int) (peerID : ID) :
    Exec (Event Peer Block Proto Reactor State) Err Unit := do
  let peer ← callPeersGet sio peerID
  match peer with
  | none => goReturn (some (.errorf "peer not found"))
  | some peer =>
    let r ← callMsgToProto c (.StatusResponseMessage height)
    match r with
    | .error err => goReturn (some (.codec err))
    | .ok bm =>
      let r ← callMarshal c bm
      match r with
      | .error err => goReturn (some (.codec err))
      | .ok msgBytes =>
        let queued ← callTrySend c peer BlockchainChannel msgBytes
        if !queued then
          goReturn (some (.errorf "peer queue full"))
        else
          goReturn none

/-- The method `switchIO.sendBlockToPeer`; the pointer `block` may be nil (`none`). -/
def sendBlockToPeer (c : Collaborators Peer Block Proto Err Reactor State)
    (sio : switchIO Peer Reactor) (block : Option Block) (peerID : ID) :
    Exec (Event Peer Block Proto Reactor State) Err Unit := do
  let peer ← callPeersGet sio peerID
  match peer with
  | none => goReturn (some (.errorf "peer not found"))
  | some peer =>
    match block with
    | none => goPanic (.text "trying to send nil block")
    | some block =>
      let r ← callMsgToProto c (.BlockResponseMessage block)
      match r with
      | .error err => goReturn (some (.codec err))
      | .ok bm =>
        let r ← callMarshal c bm
        match r with
        | .error err => goReturn (some (.codec err))
        | .ok msgBytes =>
          let queued ← callTrySend c peer BlockchainChannel msgBytes
          if !queued then
            goReturn (some (.errorf "peer queue full"))
          else
            goReturn none

/-- The method `switchIO.sendBlockNotFound`. -/
def sendBlockNotFound (c : Collaborators Peer Block Proto Err Reactor State)
    (sio : switchIO Peer Reactor) (height : Int) (peerID : ID) :
    Exec (Event Peer Block Proto Reactor State) Err Unit := do
  let peer ← callPeersGet sio peerID
  match peer with
  | none => goReturn (some (.errorf "peer not found"))
  | some peer =>
    let r ← callMsgToProto c (.NoBlockResponseMessage height)
    match r with
    | .error err => goReturn (some (.codec err))
    | .ok bm =>
      let r ← callMarshal c bm
      match r with
      | .error err => goReturn (some (.codec err))
      | .ok msgBytes =>
        let queued ← callTrySend c peer BlockchainChannel msgBytes
        if !queued then
          goReturn (some (.errorf "peer queue full"))
        else
          goReturn none

/-- The method `switchIO.trySwitchToConsensus`.  It has no result: a normal end is
`Flow.next ()`.  The comma-ok type assertion fails on the nil reactor and on a
reactor without the method. -/
def trySwitchToConsensus (c : Collaborators Peer Block Proto Err Reactor State)
    (sio : switchIO Peer Reactor) (state : State) (blocksSynced : Int) :
    Exec (Event Peer Block Proto Reactor State) Err Unit := do
  let r ← callReactor sio "CONSENSUS"
  match r with
  | none => pure ()
  | some conR =>
    if c.isConsensusReactor conR then
      callSwitchToConsensus conR state blocksSynced
    else
      pure ()

/-- The method `switchIO.broadcastStatusRequest`. -/
def broadcastStatusRequest (c : Collaborators Peer Block Proto Err Reactor State)
    (_sio : switchIO Peer Reactor) (base height : Int) :
    Exec (Event Peer Block Proto Reactor State) Err Unit := do
  let r ← callMsgToProto c (.StatusRequestMessage base height)
  match r with
  | .error err => goReturn (some (.codec err))
  | .ok bm =>
    let r ← callMarshal c bm
    match r with
    | .error err => goPanic (.error (.codec err))
    | .ok msgBytes =>
      callBroadcast BlockchainChannel msgBytes
      goReturn none

end Methods

/-! ## Vocabulary of the statements -/

section Vocabulary

variable {Peer Block Proto Err Reactor State : Type}

/-- A call of `bc.MsgToProto`. -/
def Event.isMsgToProto : Event Peer Block Proto Reactor State → Bool
  | .MsgToProto _ => true
  | _ => false

/-- A call of `Marshal`. -/
def Event.isMarshal : Event Peer Block Proto Reactor State → Bool
  | .Marshal _ => true
  | _ => false

/-- A call of `Peer.TrySend`. -/
def Event.isTrySend : Event Peer Block Proto Reactor State → Bool
  | .TrySend _ _ _ => true
  | _ => false

/-- A call of `Switch.Broadcast`. -/
def Event.isBroadcast : Event Peer Block Proto Reactor State → Bool
  | .Broadcast _ _ => true
  | _ => false

/-- A call of `SwitchToConsensus`. -/
def Event.isSwitchToConsensus : Event Peer Block Proto Reactor State → Bool
  | .SwitchToConsensus _ _ _ => true
  | _ => false

/-- A call of one of the four methods of `iIO` that take a peer, with its
arguments other than the peer (the block of `sendBlockToPeer` is not nil). -/
inductive PeerSend (Block : Type) where
  | blockRequest (height : Int)
  | blockToPeer (block : Block)
  | blockNotFound (height : Int)
  | statusResponse (height : Int)
  deriving DecidableEq, Repr

/-- Running the call on a `switchIO`, for the peer `peerID`. -/
def PeerSend.run (c : Collaborators Peer Block Proto Err Reactor State)
    (sio : switchIO Peer Reactor) (peerID : ID) :
    PeerSend Block → Exec (Event Peer Block Proto Reactor State) Err Unit
  | .blockRequest height => sendBlockRequest c sio peerID height
  | .blockToPeer block => sendBlockToPeer c sio (some block) peerID
  | .blockNotFound height => sendBlockNotFound c sio height peerID
  | .statusResponse height => sendStatusResponse c sio height peerID

/-- The message each call is to send: `BlockRequest{height}`, `BlockResponse{block}`,
`NoBlockResponse{height}`, `StatusResponse{height}`. -/
def PeerSend.message : PeerSend Block → Message Block
  | .blockRequest height => .BlockRequestMessage height
  | .blockToPeer block => .BlockResponseMessage block
  | .blockNotFound height => .NoBlockResponseMessage height
  | .statusResponse height => .StatusResponseMessage height

end Vocabulary

/-! ## Concrete collaborators

A small switch with one connected peer and a codec whose three steps can each be
made to fail; used to evaluate the methods on concrete inputs. -/

/-- A codec over blocks numbered by naturals.  `construct`, `serialize` and `accept`
say whether `MsgToProto`, `Marshal` and `TrySend` succeed. -/
def demoCollaborators (construct serialize accept : Bool) :
    Collaborators String Nat (Message Nat) String String Nat where
  msgToProto := fun msg => if construct then .ok msg else .error "cannot convert"
  marshal := fun bm =>
    if serialize then
      match bm with
      | .BlockRequestMessage h => .ok [1, h.toNat]
      | .BlockResponseMessage b => .ok [2, b]
      | .NoBlockResponseMessage h => .ok [3, h.toNat]
      | .StatusResponseMessage h => .ok [4, h.toNat]
      | .StatusRequestMessage b h => .ok [5, b.toNat, h.toNat]
    else .error "cannot marshal"
  trySend := fun _ _ _ => accept
  isConsensusReactor := fun r => r == "consensus reactor"

/-- A switch whose only peer is `alice`, with the reactor `conR` (if any) registered
under the name `CONSENSUS`. -/
def demoSwitch (conR : Option String) : switchIO String String :=
  newSwitchIo
    { peers := fun id => if id = "alice" then some "conn-alice" else none
      reactors := fun name => if name = "CONSENSUS" then conR else none }

/-! ## The point-to-point sends -/

section PointToPoint

variable {Peer Block Proto Err Reactor State : Type}

/-- C1: when the peer registry does not resolve the peer identifier, each of the four
sends that take a peer returns the error "peer not found"; the only collaborator
call it makes is the registry lookup, so neither `MsgToProto` nor `Marshal` is
invoked and there is no `TrySend` and no `Broadcast`. -/
theorem send_unresolved_peer_not_found
    (c : Collaborators Peer Block Proto Err Reactor State) (sio : switchIO Peer Reactor)
    (peerID : ID) (op : PeerSend Block) (hpeer : sio.sw.peers peerID = none) :
    (op.run c sio peerID).flow = .ret (some (.errorf "peer not found")) ∧
    (op.run c sio peerID).events = [.PeersGet peerID] ∧
    (op.run c sio peerID).events.filter (fun ev => ev.isMsgToProto || ev.isMarshal) = [] ∧
    (op.run c sio peerID).events.filter (fun ev => ev.isTrySend || ev.isBroadcast) = [] := by
  cases op <;>
    simp [PeerSend.run, sendBlockRequest, sendBlockToPeer, sendBlockNotFound,
      sendStatusResponse, bind, Exec.bind, callPeersGet, goReturn, hpeer,
      Event.isMsgToProto, Event.isMarshal, Event.isTrySend, Event.isBroadcast]

/-- Evaluation of C1 for `sendBlockToPeer` and a peer the demo switch does not know. -/
theorem send_unresolved_peer_not_found_witness :
    (demoSwitch none).sw.peers "bob" = none ∧
    (sendBlockToPeer (demoCollaborators true true true) (demoSwitch none) (some 7) "bob").flow
      = .ret (some (.errorf "peer not found")) :=
  ⟨by decide,
   (send_unresolved_peer_not_found (demoCollaborators true true true) (demoSwitch none) "bob"
      (.blockToPeer 7) (by decide)).1⟩

/-- C2: each of the four sends that take a peer returns nil exactly when the peer
identifier resolves, `MsgToProto` and `Marshal` both succeed on its message, and
`TrySend` on the resolved peer, on `BlockchainChannel`, accepts the marshalled
bytes. -/
theorem send_returns_nil_iff
    (c : Collaborators Peer Block Proto Err Reactor State) (sio : switchIO Peer Reactor)
    (peerID : ID) (op : PeerSend Block) :
    (op.run c sio peerID).flow = .ret none ↔
      ∃ peer bm msgBytes, sio.sw.peers peerID = some peer ∧
        c.msgToProto op.message = .ok bm ∧ c.marshal bm = .ok msgBytes ∧
        c.trySend peer BlockchainChannel msgBytes = true := by
  cases op <;>
    simp only [PeerSend.run, PeerSend.message, sendBlockRequest, sendBlockToPeer,
      sendBlockNotFound, sendStatusResponse, bind, Exec.bind, callPeersGet, callMsgToProto,
      callMarshal, callTrySend, goReturn] <;>
    (cases hp : sio.sw.peers peerID <;> simp
     rename_i peer
     cases hm : c.msgToProto _ <;> simp
     rename_i bm
     cases hb : c.marshal bm <;> simp
     rename_i msgBytes
     cases hq : c.trySend peer BlockchainChannel msgBytes <;> simp)

/-- C5: with a resolvable peer and a message that `MsgToProto` and `Marshal` both
accept, each of the four sends makes exactly one `TrySend`: on the resolved peer,
on channel 0x40, with the marshalled bytes.  Nothing is assumed about the answer
of `TrySend`, so this holds when the queue accepts and when it rejects. -/
theorem send_one_try_send
    (c : Collaborators Peer Block Proto Err Reactor State) (sio : switchIO Peer Reactor)
    (peerID : ID) (op : PeerSend Block) (peer : Peer) (bm : Proto) (msgBytes : Bytes)
    (hpeer : sio.sw.peers peerID = some peer)
    (hproto : c.msgToProto op.message = .ok bm) (hbytes : c.marshal bm = .ok msgBytes) :
    (op.run c sio peerID).events.filter Event.isTrySend = [.TrySend peer 0x40 msgBytes] ∧
    (op.run c sio peerID).events.filter Event.isBroadcast = [] ∧
    (op.run c sio peerID).events
      = [.PeersGet peerID, .MsgToProto op.message, .Marshal bm, .TrySend peer 0x40 msgBytes] := by
  cases op <;>
    simp only [PeerSend.message] at hproto <;>
    simp [PeerSend.run, PeerSend.message, sendBlockRequest, sendBlockToPeer,
      sendBlockNotFound, sendStatusResponse, bind, Exec.bind, callPeersGet, callMsgToProto,
      callMarshal, callTrySend, goReturn, hpeer, hproto, hbytes, BlockchainChannel,
      Event.isTrySend, Event.isBroadcast] <;>
    cases c.trySend peer 64 msgBytes <;> simp [Event.isTrySend, Event.isBroadcast]

/-- Evaluation of C5 for `sendBlockNotFound` on a peer whose queue rejects. -/
theorem send_one_try_send_witness :
    (demoSwitch none).sw.peers "alice" = some "conn-alice" ∧
    (demoCollaborators true true false).trySend "conn-alice" 0x40 [3, 12] = false ∧
    (sendBlockNotFound (demoCollaborators true true false) (demoSwitch none) 12 "alice").events.filter
        Event.isTrySend = [.TrySend "conn-alice" 0x40 [3, 12]] :=
  ⟨by decide, by decide,
   (send_one_try_send (demoCollaborators true true false) (demoSwitch none) "alice"
      (.blockNotFound 12) "conn-alice" (.NoBlockResponseMessage 12) [3, 12]
      (by decide) rfl rfl).1⟩

/-- C9: with a resolvable peer, when `MsgToProto` fails on the message, or succeeds
and `Marshal` then fails, each of the four sends returns exactly the error of the
codec and makes no `TrySend` (and no `Broadcast`). -/
theorem send_codec_failure
    (c : Collaborators Peer Block Proto Err Reactor State) (sio : switchIO Peer Reactor)
    (peerID : ID) (op : PeerSend Block) (peer : Peer) (err : Err)
    (hpeer : sio.sw.peers peerID = some peer)
    (hfail : c.msgToProto op.message = .error err ∨
      ∃ bm, c.msgToProto op.message = .ok bm ∧ c.marshal bm = .error err) :
    (op.run c sio peerID).flow = .ret (some (.codec err)) ∧
    (op.run c sio peerID).events.filter (fun ev => ev.isTrySend || ev.isBroadcast) = [] := by
  rcases hfail with hproto | ⟨bm, hproto, hbytes⟩
  · cases op <;>
      simp only [PeerSend.message] at hproto <;>
      simp [PeerSend.run, sendBlockRequest, sendBlockToPeer,
        sendBlockNotFound, sendStatusResponse, bind, Exec.bind, callPeersGet, callMsgToProto,
        goReturn, hpeer, hproto, Event.isTrySend, Event.isBroadcast]
  · cases op <;>
      simp only [PeerSend.message] at hproto <;>
      simp [PeerSend.run, sendBlockRequest, sendBlockToPeer,
        sendBlockNotFound, sendStatusResponse, bind, Exec.bind, callPeersGet, callMsgToProto,
        callMarshal, goReturn, hpeer, hproto, hbytes, Event.isTrySend, Event.isBroadcast]

/-- Evaluation of C9: `Marshal` fails under `sendBlockRequest`, `MsgToProto` fails
under `sendStatusResponse`. -/
theorem send_codec_failure_witness :
    (sendBlockRequest (demoCollaborators true false true) (demoSwitch none) "alice" 3).flow
      = .ret (some (.codec "cannot marshal")) ∧
    (sendStatusResponse (demoCollaborators false true true) (demoSwitch none) 3 "alice").flow
      = .ret (some (.codec "cannot convert")) :=
  ⟨(send_codec_failure (demoCollaborators true false true) (demoSwitch none) "alice"
      (.blockRequest 3) "conn-alice" "cannot marshal" (by decide)
      (Or.inr ⟨.BlockRequestMessage 3, rfl, rfl⟩)).1,
   (send_codec_failure (demoCollaborators false true true) (demoSwitch none) "alice"
      (.statusResponse 3) "conn-alice" "cannot convert" (by decide)
      (Or.inl rfl)).1⟩

/-- C6: evaluation on a resolved peer whose queue rejects, with a codec that accepts
every message.  `sendBlockToPeer`, `sendBlockNotFound` and `sendStatusResponse`
return the error with text "peer queue full"; `sendBlockRequest` returns an error
with another text, "send queue full", so its error is not the one of the other
three. -/
theorem queue_full_errors_differ :
    (demoSwitch none).sw.peers "alice" = some "conn-alice" ∧
    (demoCollaborators true true false).trySend "conn-alice" BlockchainChannel [1, 5] = false ∧
    (sendBlockToPeer (demoCollaborators true true false) (demoSwitch none) (some 5) "alice").flow
      = .ret (some (.errorf "peer queue full")) ∧
    (sendBlockNotFound (demoCollaborators true true false) (demoSwitch none) 5 "alice").flow
      = .ret (some (.errorf "peer queue full")) ∧
    (sendStatusResponse (demoCollaborators true true false) (demoSwitch none) 5 "alice").flow
      = .ret (some (.errorf "peer queue full")) ∧
    (sendBlockRequest (demoCollaborators true true false) (demoSwitch none) "alice" 5).flow
      = .ret (some (.errorf "send queue full")) ∧
    (sendBlockRequest (demoCollaborators true true false) (demoSwitch none) "alice" 5).flow
      ≠ (sendStatusResponse (demoCollaborators true true false) (demoSwitch none) 5 "alice").flow := by
  decide

/-- C3, as stated, fails: with a nil block and a peer identifier the registry does not
resolve, `sendBlockToPeer` returns the error "peer not found" and does not panic. -/
theorem nil_block_unresolved_peer_returns :
    (demoSwitch none).sw.peers "bob" = none ∧
    (sendBlockToPeer (demoCollaborators true true true) (demoSwitch none) none "bob").flow
      = .ret (some (.errorf "peer not found")) ∧
    (sendBlockToPeer (demoCollaborators true true true) (demoSwitch none) none "bob").flow
      ≠ .panic (.text "trying to send nil block") := by
  decide

/-- C3, amended: `sendBlockToPeer` with a nil block looks the peer up and nothing else;
it panics with "trying to send nil block" when the peer identifier resolves, and
returns the error "peer not found" when it does not. -/
theorem send_nil_block
    (c : Collaborators Peer Block Proto Err Reactor State) (sio : switchIO Peer Reactor)
    (peerID : ID) :
    (sendBlockToPeer c sio none peerID).events = [.PeersGet peerID] ∧
    (sendBlockToPeer c sio none peerID).flow
      = if (sio.sw.peers peerID).isSome then .panic (.text "trying to send nil block")
        else .ret (some (.errorf "peer not found")) := by
  cases hpeer : sio.sw.peers peerID <;>
    simp [sendBlockToPeer, bind, Exec.bind, callPeersGet, goReturn, goPanic, hpeer]

end PointToPoint

/-! ## The broadcast -/

section Broadcast

variable {Peer Block Proto Err Reactor State : Type}

/-- C4: evaluation with a codec whose `MsgToProto` succeeds and whose `Marshal` fails.
`broadcastStatusRequest` does not return the failure: it panics with it (nothing
is handed to `Broadcast`).  On the same codec `sendStatusResponse`, like the other
three sends, returns the failure of `Marshal` as its error result. -/
theorem broadcast_marshal_failure_panics :
    (demoCollaborators true false true).msgToProto (.StatusRequestMessage 1 2)
      = .ok (.StatusRequestMessage 1 2) ∧
    (demoCollaborators true false true).marshal (.StatusRequestMessage 1 2)
      = .error "cannot marshal" ∧
    (broadcastStatusRequest (demoCollaborators true false true) (demoSwitch none) 1 2).flow
      = .panic (.error (.codec "cannot marshal")) ∧
    (broadcastStatusRequest (demoCollaborators true false true) (demoSwitch none) 1 2).flow
      ≠ .ret (some (.codec "cannot marshal")) ∧
    (broadcastStatusRequest (demoCollaborators true false true) (demoSwitch none) 1 2).events
      = [.MsgToProto (.StatusRequestMessage 1 2), .Marshal (.StatusRequestMessage 1 2)] ∧
    (sendStatusResponse (demoCollaborators true false true) (demoSwitch none) 2 "alice").flow
      = .ret (some (.codec "cannot marshal")) :=
  ⟨rfl, rfl, by decide, by decide, by decide, by decide⟩

/-- C7: for every base and height (no relation between them is assumed) on which
`MsgToProto` and `Marshal` succeed, `broadcastStatusRequest` calls `Marshal` once,
calls `Broadcast` once, on channel 0x40 with the marshalled bytes, makes no
`TrySend` of its own and returns nil.  The peer set and the answers of `TrySend`
are arbitrary. -/
theorem broadcast_status_request_ok
    (c : Collaborators Peer Block Proto Err Reactor State) (sio : switchIO Peer Reactor)
    (base height : Int) (bm : Proto) (msgBytes : Bytes)
    (hproto : c.msgToProto (.StatusRequestMessage base height) = .ok bm)
    (hbytes : c.marshal bm = .ok msgBytes) :
    (broadcastStatusRequest c sio base height).flow = .ret none ∧
    (broadcastStatusRequest c sio base height).events.filter Event.isMarshal = [.Marshal bm] ∧
    (broadcastStatusRequest c sio base height).events.filter Event.isBroadcast
      = [.Broadcast 0x40 msgBytes] ∧
    (broadcastStatusRequest c sio base height).events
      = [.MsgToProto (.StatusRequestMessage base height), .Marshal bm,
         .Broadcast 0x40 msgBytes] := by
  simp [broadcastStatusRequest, bind, Exec.bind, callMsgToProto, callMarshal, callBroadcast,
    goReturn, hproto, hbytes, BlockchainChannel, Event.isMarshal, Event.isBroadcast]

/-- Evaluation of C7 with base 150 above height 100 and a switch whose peers reject. -/
theorem broadcast_status_request_ok_witness :
    (demoCollaborators true true false).marshal (.StatusRequestMessage 150 100)
      = .ok [5, 150, 100] ∧
    (broadcastStatusRequest (demoCollaborators true true false) (demoSwitch none) 150 100).flow
      = .ret none ∧
    (broadcastStatusRequest (demoCollaborators true true false) (demoSwitch none) 150 100).events.filter
        Event.isBroadcast = [.Broadcast 0x40 [5, 150, 100]] :=
  have h := broadcast_status_request_ok (demoCollaborators true true false) (demoSwitch none)
    150 100 (.StatusRequestMessage 150 100) [5, 150, 100] rfl rfl
  ⟨rfl, h.1, h.2.2.1⟩

end Broadcast

/-! ## The handoff to consensus -/

section Handoff

variable {Peer Block Proto Err Reactor State : Type}

/-- C8: `trySwitchToConsensus` always ends normally (no error result, no panic).  When
no reactor is registered under "CONSENSUS", or the registered one does not have
the method `SwitchToConsensus`, its only collaborator call is the lookup of that
name; when one is registered and has the method, it calls that reactor's
`SwitchToConsensus` exactly once, with the given state and blocksSynced. -/
theorem try_switch_to_consensus
    (c : Collaborators Peer Block Proto Err Reactor State) (sio : switchIO Peer Reactor)
    (state : State) (blocksSynced : Int) :
    (trySwitchToConsensus c sio state blocksSynced).flow = .next () ∧
    (sio.sw.reactors "CONSENSUS" = none →
      (trySwitchToConsensus c sio state blocksSynced).events = [.Reactor "CONSENSUS"]) ∧
    (∀ conR, sio.sw.reactors "CONSENSUS" = some conR → c.isConsensusReactor conR = false →
      (trySwitchToConsensus c sio state blocksSynced).events = [.Reactor "CONSENSUS"]) ∧
    (∀ conR, sio.sw.reactors "CONSENSUS" = some conR → c.isConsensusReactor conR = true →
      (trySwitchToConsensus c sio state blocksSynced).events
        = [.Reactor "CONSENSUS", .SwitchToConsensus conR state blocksSynced] ∧
      (trySwitchToConsensus c sio state blocksSynced).events.filter Event.isSwitchToConsensus
        = [.SwitchToConsensus conR state blocksSynced]) := by
  cases hreg : sio.sw.reactors "CONSENSUS" with
  | none =>
    simp [trySwitchToConsensus, bind, Exec.bind, callReactor, pure, hreg]
  | some conR =>
    cases hcap : c.isConsensusReactor conR <;>
      simp [trySwitchToConsensus, bind, Exec.bind, callReactor, callSwitchToConsensus, pure,
        hreg, hcap, Event.isSwitchToConsensus]

/-- Evaluation of C8 with blocksSynced 42: no reactor registered, a reactor without the
method, and a consensus reactor. -/
theorem try_switch_to_consensus_witness :
    (trySwitchToConsensus (demoCollaborators true true true) (demoSwitch none) 9 42).events
      = [.Reactor "CONSENSUS"] ∧
    (trySwitchToConsensus (demoCollaborators true true true)
        (demoSwitch (some "mempool reactor")) 9 42).events = [.Reactor "CONSENSUS"] ∧
    (trySwitchToConsensus (demoCollaborators true true true)
        (demoSwitch (some "consensus reactor")) 9 42).events
      = [.Reactor "CONSENSUS", .SwitchToConsensus "consensus reactor" 9 42] :=
  ⟨(try_switch_to_consensus (demoCollaborators true true true) (demoSwitch none) 9 42).2.1
      (by decide),
   (try_switch_to_consensus (demoCollaborators true true true)
      (demoSwitch (some "mempool reactor")) 9 42).2.2.1 "mempool reactor" (by decide) (by decide),
   ((try_switch_to_consensus (demoCollaborators true true true)
      (demoSwitch (some "consensus reactor")) 9 42).2.2.2 "consensus reactor" (by decide)
      (by decide)).1⟩

end Handoff

/-! ## The message handed to the codec -/

section Messages

variable {Peer Block Proto Err Reactor State : Type}

/-- C10: the calls of `bc.MsgToProto` made by each method.  A send that takes a peer
makes one, as soon as the peer resolves (none otherwise), and
`broadcastStatusRequest` always makes one; the argument is `BlockRequest{height}`
for `sendBlockRequest`, `BlockResponse{block}` for `sendBlockToPeer`,
`NoBlockResponse{height}` for `sendBlockNotFound`, `StatusResponse{height}` for
`sendStatusResponse` and `StatusRequest{base, height}`, in this order, for
`broadcastStatusRequest`. -/
theorem codec_receives_matching_message
    (c : Collaborators Peer Block Proto Err Reactor State) (sio : switchIO Peer Reactor)
    (peerID : ID) (base height : Int) (block : Block) :
    (sendBlockRequest c sio peerID height).events.filter Event.isMsgToProto
      = (if (sio.sw.peers peerID).isSome then [.MsgToProto (.BlockRequestMessage height)]
         else []) ∧
    (sendBlockToPeer c sio (some block) peerID).events.filter Event.isMsgToProto
      = (if (sio.sw.peers peerID).isSome then [.MsgToProto (.BlockResponseMessage block)]
         else []) ∧
    (sendBlockNotFound c sio height peerID).events.filter Event.isMsgToProto
      = (if (sio.sw.peers peerID).isSome then [.MsgToProto (.NoBlockResponseMessage height)]
         else []) ∧
    (sendStatusResponse c sio height peerID).events.filter Event.isMsgToProto
      = (if (sio.sw.peers peerID).isSome then [.MsgToProto (.StatusResponseMessage height)]
         else []) ∧
    (broadcastStatusRequest c sio base height).events.filter Event.isMsgToProto
      = [.MsgToProto (.StatusRequestMessage base height)] := by
  refine ⟨?_, ?_, ?_, ?_, ?_⟩
  · cases hpeer : sio.sw.peers peerID with
    | none => simp [sendBlockRequest, bind, Exec.bind, callPeersGet, goReturn, hpeer,
        Event.isMsgToProto]
    | some peer =>
      cases hproto : c.msgToProto (.BlockRequestMessage height) with
      | error err => simp [sendBlockRequest, bind, Exec.bind, callPeersGet, callMsgToProto,
          goReturn, hpeer, hproto, Event.isMsgToProto]
      | ok bm =>
        cases hbytes : c.marshal bm with
        | error err => simp [sendBlockRequest, bind, Exec.bind, callPeersGet, callMsgToProto,
            callMarshal, goReturn, hpeer, hproto, hbytes, Event.isMsgToProto]
        | ok msgBytes =>
          cases hq : c.trySend peer BlockchainChannel msgBytes <;>
            simp [sendBlockRequest, bind, Exec.bind, callPeersGet, callMsgToProto,
              callMarshal, callTrySend, goReturn, hpeer, hproto, hbytes, hq,
              Event.isMsgToProto]
  · cases hpeer : sio.sw.peers peerID with
    | none => simp [sendBlockToPeer, bind, Exec.bind, callPeersGet, goReturn, hpeer,
        Event.isMsgToProto]
    | some peer =>
      cases hproto : c.msgToProto (.BlockResponseMessage block) with
      | error err => simp [sendBlockToPeer, bind, Exec.bind, callPeersGet, callMsgToProto,
          goReturn, hpeer, hproto, Event.isMsgToProto]
      | ok bm =>
        cases hbytes : c.marshal bm with
        | error err => simp [sendBlockToPeer, bind, Exec.bind, callPeersGet, callMsgToProto,
            callMarshal, goReturn, hpeer, hproto, hbytes, Event.isMsgToProto]
        | ok msgBytes =>
          cases hq : c.trySend peer BlockchainChannel msgBytes <;>
            simp [sendBlockToPeer, bind, Exec.bind, callPeersGet, callMsgToProto,
              callMarshal, callTrySend, goReturn, hpeer, hproto, hbytes, hq,
              Event.isMsgToProto]
  · cases hpeer : sio.sw.peers peerID with
    | none => simp [sendBlockNotFound, bind, Exec.bind, callPeersGet, goReturn, hpeer,
        Event.isMsgToProto]
    | some peer =>
      cases hproto : c.msgToProto (.NoBlockResponseMessage height) with
      | error err => simp [sendBlockNotFound, bind, Exec.bind, callPeersGet, callMsgToProto,
          goReturn, hpeer, hproto, Event.isMsgToProto]
      | ok bm =>
        cases hbytes : c.marshal bm with
        | error err => simp [sendBlockNotFound, bind, Exec.bind, callPeersGet, callMsgToProto,
            callMarshal, goReturn, hpeer, hproto, hbytes, Event.isMsgToProto]
        | ok msgBytes =>
          cases hq : c.trySend peer BlockchainChannel msgBytes <;>
            simp [sendBlockNotFound, bind, Exec.bind, callPeersGet, callMsgToProto,
              callMarshal, callTrySend, goReturn, hpeer, hproto, hbytes, hq,
              Event.isMsgToProto]
  · cases hpeer : sio.sw.peers peerID with
    | none => simp [sendStatusResponse, bind, Exec.bind, callPeersGet, goReturn, hpeer,
        Event.isMsgToProto]
    | some peer =>
      cases hproto : c.msgToProto (.StatusResponseMessage height) with
      | error err => simp [sendStatusResponse, bind, Exec.bind, callPeersGet, callMsgToProto,
          goReturn, hpeer, hproto, Event.isMsgToProto]
      | ok bm =>
        cases hbytes : c.marshal bm with
        | error err => simp [sendStatusResponse, bind, Exec.bind, callPeersGet, callMsgToProto,
            callMarshal, goReturn, hpeer, hproto, hbytes, Event.isMsgToProto]
        | ok msgBytes =>
          cases hq : c.trySend peer BlockchainChannel msgBytes <;>
            simp [sendStatusResponse, bind, Exec.bind, callPeersGet, callMsgToProto,
              callMarshal, callTrySend, goReturn, hpeer, hproto, hbytes, hq,
              Event.isMsgToProto]
  · cases hproto : c.msgToProto (.StatusRequestMessage base height) with
    | error err => simp [broadcastStatusRequest, bind, Exec.bind, callMsgToProto, goReturn,
        hproto, Event.isMsgToProto]
    | ok bm =>
      cases hbytes : c.marshal bm <;>
        simp [broadcastStatusRequest, bind, Exec.bind, callMsgToProto, callMarshal,
          callBroadcast, goReturn, goPanic, hproto, hbytes, Event.isMsgToProto]

end Messages

end Blockchain.V2
